import Mathlib

set_option maxHeartbeats 1000000

namespace GeneralizedPose

/-! Shallow embedding of `src/colmap/estimators/generalized_pose.cc`.

Machine doubles are modelled by exact rationals; Eigen's `isApprox`
(a relative comparison of squared norms) is expressible exactly over ℚ.
External collaborators (camera back-projection, the RANSAC/LORANSAC
consensus engines, the two-view estimator, the Ceres solver and its
covariance extraction, Eigen's vector normalization) are parameters of
the embedded functions. -/

/-- 2D point (Eigen::Vector2d). -/
abbrev V2 := ℚ × ℚ

/-- 3D point (Eigen::Vector3d). -/
abbrev V3 := ℚ × ℚ × ℚ

/-- Quaternion `(w, x, y, z)` (Eigen::Quaterniond). -/
abbrev Quat := ℚ × ℚ × ℚ × ℚ

def v3zero : V3 := (0, 0, 0)

def v3add (a b : V3) : V3 := (a.1 + b.1, a.2.1 + b.2.1, a.2.2 + b.2.2)

def v3sub (a b : V3) : V3 := (a.1 - b.1, a.2.1 - b.2.1, a.2.2 - b.2.2)

def v3neg (a : V3) : V3 := (-a.1, -a.2.1, -a.2.2)

def v3smul (c : ℚ) (a : V3) : V3 := (c * a.1, c * a.2.1, c * a.2.2)

/-- Squared Euclidean norm (Eigen `squaredNorm`). -/
def sqNorm (a : V3) : ℚ := a.1 * a.1 + a.2.1 * a.2.1 + a.2.2 * a.2.2

/-- Cross product of 3-vectors (Eigen `cross`). -/
def cross (a b : V3) : V3 :=
  (a.2.1 * b.2.2 - a.2.2 * b.2.1, a.2.2 * b.1 - a.1 * b.2.2, a.1 * b.2.1 - a.2.1 * b.1)

/-- Eigen `DenseBase::isApprox(other, prec)` for 3-vectors:
`(a - b).squaredNorm() <= prec^2 * min(a.squaredNorm(), b.squaredNorm())`. -/
def isApproxQ (a b : V3) (prec : ℚ) : Bool :=
  decide (sqNorm (v3sub a b) ≤ prec * prec * min (sqNorm a) (sqNorm b))

def qvec (q : Quat) : V3 := (q.2.1, q.2.2.1, q.2.2.2)

def qconj (q : Quat) : Quat := (q.1, -q.2.1, -q.2.2.1, -q.2.2.2)

def qnormSq (q : Quat) : ℚ :=
  q.1 * q.1 + q.2.1 * q.2.1 + q.2.2.1 * q.2.2.1 + q.2.2.2 * q.2.2.2

def qsmul (c : ℚ) (q : Quat) : Quat := (c * q.1, c * q.2.1, c * q.2.2.1, c * q.2.2.2)

/-- Eigen `Quaterniond::inverse()`: conjugate divided by squared norm
(zero quaternion when the squared norm is zero). -/
def qInv (q : Quat) : Quat :=
  if qnormSq q = 0 then (0, 0, 0, 0) else qsmul (1 / qnormSq q) (qconj q)

/-- Eigen `Quaterniond::_transformVector` (quaternion * vector):
`uv = 2 * (q.vec() cross v); v + q.w() * uv + q.vec() cross uv`. -/
def qApply (q : Quat) (v : V3) : V3 :=
  let uv := v3smul 2 (cross (qvec q) v)
  v3add (v3add v (v3smul q.1 uv)) (cross (qvec q) uv)

/-- colmap `Rigid3d`: rotation quaternion plus translation. -/
structure Rigid3dQ where
  rotation : Quat
  translation : V3
  deriving DecidableEq

/-- Default-constructed `Rigid3d`: identity rotation, zero translation. -/
def rigidDefault : Rigid3dQ := ⟨(1, 0, 0, 0), v3zero⟩

instance : Inhabited Rigid3dQ := ⟨rigidDefault⟩

/-- The optical center of a camera in the rig frame, as computed in
`IsPanoramicRig`: `cams_from_rig[idx].rotation.inverse() * -cams_from_rig[idx].translation`. -/
def originInRig (T : Rigid3dQ) : V3 := qApply (qInv T.rotation) (v3neg T.translation)

/-! ### Camera model and options (external interfaces) -/

/-- colmap `Camera`, reduced to the interface `generalized_pose.cc` uses:
back-projection `CamFromImg` (fallible), threshold conversion
`CamFromImgThreshold`, the intrinsic parameter vector, and the three
disjoint intrinsic index groups. -/
structure Camera where
  camFromImg : V2 → Option V2
  camFromImgThreshold : ℚ → ℚ
  params : List ℚ
  ppIdxs : List ℕ
  flIdxs : List ℕ
  epIdxs : List ℕ

/-- A camera value used as the `getD` fallback; indices are range-checked
before any access, so it is never observed on a live path. -/
def defaultCamera : Camera :=
  { camFromImg := fun _ => none
    camFromImgThreshold := fun _ => 0
    params := []
    ppIdxs := []
    flIdxs := []
    epIdxs := [] }

instance : Inhabited Camera := ⟨defaultCamera⟩

/-- `RANSACOptions`, reduced to the only field `generalized_pose.cc` reads
or writes: the pixel error threshold `max_error`. -/
structure RansacOptions where
  maxError : ℚ
  deriving DecidableEq

/-- Outcome of a `THROW_CHECK` sequence. `.ub` marks the dereference of a
past-the-end iterator (`std::minmax_element` on an empty range), which is
undefined behavior in the source. -/
inductive CheckOutcome
  | ok
  | violation
  | ub
  deriving DecidableEq

/-- `ThrowCheckCameras` (lines 53-62): cameras nonempty, extrinsics count
equals camera count, then `minmax_element` over `camera_idxs` with
`THROW_CHECK_GE(*min, 0)` (vacuous for `size_t`) and
`THROW_CHECK_LT(*max, cameras.size())`. On an empty `camera_idxs`,
`minmax_element` returns past-the-end iterators and both dereferences are
undefined behavior, modelled as `.ub`. -/
def throwCheckCameras (camera_idxs : List ℕ) (cams_from_rig : List Rigid3dQ)
    (cameras : List Camera) : CheckOutcome :=
  if cameras.isEmpty then .violation
  else if cams_from_rig.length ≠ cameras.length then .violation
  else
    match camera_idxs.max? with
    | none => .ub
    | some mx => if mx < cameras.length then .ok else .violation

/-- Modelled from the spec: `RANSACOptions::Check()` is defined outside this
translation unit; the spec lists "non-positive pixel error threshold" among
the precondition violations, so the check is modelled as requiring
`0 < max_error`. -/
def ransacOptionsCheck (opts : RansacOptions) : CheckOutcome :=
  if 0 < opts.maxError then .ok else .violation

/-! ### Unique 3D point ids (`ComputeUniquePointIds`, lines 92-127) -/

/-- `LowerVector3d`: lexicographic strict order on (x, y, z). -/
def lowerVector3d (v1 v2 : V3) : Bool :=
  if v1.1 < v2.1 then true
  else if v1.1 = v2.1 then
    if v1.2.1 < v2.2.1 then true
    else if v1.2.1 = v2.2.1 then decide (v1.2.2 < v2.2.2)
    else false
  else false

/-- The comparator handed to `std::sort`: compare point indices by
`LowerVector3d` on the points. -/
def ltPoint (points3D : List V3) (i j : ℕ) : Prop :=
  lowerVector3d (points3D.getD i v3zero) (points3D.getD j v3zero) = true

instance (points3D : List V3) : DecidableRel (ltPoint points3D) :=
  fun _ _ => Bool.decEq _ _

/-- `std::iota` followed by `std::sort` with `LowerVector3d`: the point
indices `0..n-1` sorted by the lexicographic order on the points.
(`std::sort` may produce any order consistent with the strict weak order;
a stable insertion sort is one such order.) -/
def sortPointIds (points3D : List V3) : List ℕ :=
  List.insertionSort (ltPoint points3D) (List.range points3D.length)

/-- The iterator walk of `ComputeUniquePointIds` (lines 116-125) over the
sorted index list. State: `k` is the position of `current_it`, `repPos`
the position of `unique_it` (`unique_it - point3D_ids.begin()`), `repIdx`
the original index `*unique_it`. Whenever the current point is not
`isApprox`-close (1e-5) to the representative, the representative advances
to the current position. Each original index is paired with its assigned
unique id, the representative's position. -/
def walkAux (points3D : List V3) : List ℕ → ℕ → ℕ → ℕ → List (ℕ × ℕ)
  | [], _, _, _ => []
  | i :: rest, k, repPos, repIdx =>
    if isApproxQ (points3D.getD repIdx v3zero) (points3D.getD i v3zero) (1 / 100000) then
      (i, repPos) :: walkAux points3D rest (k + 1) repPos repIdx
    else
      (i, k) :: walkAux points3D rest (k + 1) k i

/-- `ComputeUniquePointIds`: walk the sorted order starting with both
iterators at the beginning, then scatter the assigned ids back into a
vector indexed by original point index. -/
def computeUniquePointIds (points3D : List V3) : List ℕ :=
  (List.range points3D.length).map fun i =>
    (List.lookup i (walkAux points3D (sortPointIds points3D) 0 0
      ((sortPointIds points3D).getD 0 0))).getD 0

/-- The representative position after the comparison at sorted position
`k`, stated the way the spec describes the walk: position 0 is its own
representative; at each later position the representative is kept when the
current point is within the 1e-5 tolerance of the representative point,
and advances to the current position otherwise. -/
def repAfter (points3D : List V3) (sorted : List ℕ) : ℕ → ℕ
  | 0 => 0
  | k + 1 =>
    let r := repAfter points3D sorted k
    if isApproxQ (points3D.getD (sorted.getD r 0) v3zero)
        (points3D.getD (sorted.getD (k + 1) 0) v3zero) (1 / 100000) then r
    else k + 1

/-- The representative position as the walk *enters* position `m`:
initially position 0, afterwards the representative after the previous
comparison. -/
def enterRep (points3D : List V3) (sorted : List ℕ) : ℕ → ℕ
  | 0 => 0
  | m + 1 => repAfter points3D sorted m

/-! ### `ComputeMaxErrorInCamera` (lines 81-90) -/

/-- `ComputeMaxErrorInCamera`: accumulate each correspondence's camera's
converted threshold (one term per entry of `camera_idxs`), then divide by
the number of correspondences. The `THROW_CHECK_GT(max_error_px, 0)` at
its head duplicates `RANSACOptions::Check`, which already ran on every
live path. -/
def computeMaxErrorInCamera (camera_idxs : List ℕ) (cameras : List Camera)
    (max_error_px : ℚ) : ℚ :=
  (camera_idxs.foldl
      (fun acc idx => acc + (cameras.getD idx defaultCamera).camFromImgThreshold max_error_px)
      0) / (camera_idxs.length : ℚ)

/-- The `RANSACOptions` copy handed to the absolute-pose RANSAC (lines
170-172): the input options with `max_error` replaced by the averaged
per-camera threshold. -/
def absEffectiveOptions (opts : RansacOptions) (camera_idxs : List ℕ)
    (cameras : List Camera) : RansacOptions :=
  { opts with maxError := computeMaxErrorInCamera camera_idxs cameras opts.maxError }

/-! ### `IsPanoramicRig` (lines 64-79) -/

/-- The iteration order of `std::set<size_t>`: the distinct camera indices
in ascending order. -/
def sortedDedup (l : List ℕ) : List ℕ :=
  List.insertionSort (· ≤ ·) l.dedup

/-- `IsPanoramicRig`: build the set of referenced camera indices, take the
first (smallest) one's rig-frame optical center, and compare every other
referenced center to it with `isApprox` at 1e-6. On an empty index list
the source dereferences `set.begin() == set.end()`, which is undefined
behavior, modelled as `none`. -/
def isPanoramicRig (camera_idxs : List ℕ) (cams_from_rig : List Rigid3dQ) : Option Bool :=
  match sortedDedup camera_idxs with
  | [] => none
  | first :: rest =>
    let firstOrigin := originInRig (cams_from_rig.getD first rigidDefault)
    some (rest.all fun idx =>
      isApproxQ firstOrigin (originInRig (cams_from_rig.getD idx rigidDefault)) (1 / 1000000))

/-- Componentwise ("per axis") absolute closeness, the reading of
"within 1e-6 of one common point" used by the spec. -/
def perAxisWithin (a c : V3) (tol : ℚ) : Prop :=
  |a.1 - c.1| ≤ tol ∧ |a.2.1 - c.2.1| ≤ tol ∧ |a.2.2 - c.2.2| ≤ tol

/-! ### `EstimateGeneralizedAbsolutePose` (lines 131-188) -/

/-- `GP3PEstimator::X_t`: a normalized ray in the camera frame paired with
that camera's rig extrinsic. -/
structure RigPoint where
  rayInCam : V3
  camFromRig : Rigid3dQ
  deriving DecidableEq

/-- The report of `RANSAC<GP3PEstimator, UniqueInlierSupportMeasurer>::Estimate`
on success: the model, the support's plain and unique inlier counts, and
the per-correspondence inlier mask. -/
structure AbsReport where
  model : Rigid3dQ
  numInliers : ℕ
  numUniqueInliers : ℕ
  inlierMask : List Bool
  deriving DecidableEq

/-- The external absolute-pose consensus engine: RANSAC over `GP3PEstimator`
with a `UniqueInlierSupportMeasurer` built from the given unique point ids.
`none` models `!report.success`. -/
abbrev AbsRansac :=
  RansacOptions → List ℕ → List RigPoint → List V3 → Option AbsReport

/-- Eigen's `.normalized()` on a homogeneous ray involves a square root, so
it is kept abstract; the embedded functions are parametric in it. -/
abbrev Normalize := V3 → V3

/-- The precondition sequence of `EstimateGeneralizedAbsolutePose`
(lines 141-144): two length equalities, `ThrowCheckCameras`, and
`options.Check()`, in source order. -/
def absPreChecks (opts : RansacOptions) (points2D : List V2) (points3D : List V3)
    (camera_idxs : List ℕ) (cams_from_rig : List Rigid3dQ)
    (cameras : List Camera) : CheckOutcome :=
  if points2D.length ≠ points3D.length then .violation
  else if points2D.length ≠ camera_idxs.length then .violation
  else
    match throwCheckCameras camera_idxs cams_from_rig cameras with
    | .ok => ransacOptionsCheck opts
    | o => o

/-- The loop of lines 149-160: per correspondence, back-project the pixel;
on success normalize its homogeneous ray, on failure substitute the zero
ray; pair it with the camera's rig extrinsic. -/
def buildRigPoints (normalize : Normalize) (cameras : List Camera)
    (cams_from_rig : List Rigid3dQ) (camera_idxs : List ℕ)
    (points2D : List V2) : List RigPoint :=
  (List.range points2D.length).map fun i =>
    let cidx := camera_idxs.getD i 0
    let ray :=
      match (cameras.getD cidx defaultCamera).camFromImg (points2D.getD i (0, 0)) with
      | some cp => normalize (cp.1, cp.2, 1)
      | none => v3zero
    { rayInCam := ray, camFromRig := cams_from_rig.getD cidx rigidDefault }

/-- The caller-visible outputs of `EstimateGeneralizedAbsolutePose` written
on success. -/
structure AbsResult where
  rig_from_world : Rigid3dQ
  num_inliers : ℕ
  inlier_mask : List Bool
  deriving DecidableEq

/-- Outcome of a call: success with outputs written, failure with outputs
untouched, a `THROW_CHECK` violation, or undefined behavior. -/
inductive AbsOutcome
  | ok (r : AbsResult)
  | fail
  | violation
  | ub
  deriving DecidableEq

/-- `EstimateGeneralizedAbsolutePose`: checks, the zero-correspondence
early return, ray construction, unique point ids, threshold averaging,
and the RANSAC invocation whose unique inlier count is reported. -/
def estimateGeneralizedAbsolutePose (normalize : Normalize) (ransac : AbsRansac)
    (opts : RansacOptions) (points2D : List V2) (points3D : List V3)
    (camera_idxs : List ℕ) (cams_from_rig : List Rigid3dQ)
    (cameras : List Camera) : AbsOutcome :=
  match absPreChecks opts points2D points3D camera_idxs cams_from_rig cameras with
  | .violation => .violation
  | .ub => .ub
  | .ok =>
    if points2D.length = 0 then .fail
    else
      let rig_points2D := buildRigPoints normalize cameras cams_from_rig camera_idxs points2D
      let unique_point3D_ids := computeUniquePointIds points3D
      match ransac (absEffectiveOptions opts camera_idxs cameras)
          unique_point3D_ids rig_points2D points3D with
      | none => .fail
      | some report => .ok ⟨report.model, report.numUniqueInliers, report.inlierMask⟩

/-! ### `EstimateGeneralizedRelativePose` (lines 190-283) -/

/-- `GRNPObservation`: rig extrinsic plus normalized camera-frame ray. -/
structure GRObs where
  camFromRig : Rigid3dQ
  rayInCam : V3
  deriving DecidableEq

/-- The report of either relative consensus engine on success. -/
structure RelReport where
  model : Rigid3dQ
  numInliers : ℕ
  inlierMask : List Bool
  deriving DecidableEq

/-- The external plain two-view estimator (`EstimateRelativePose`) used in
the panoramic branch. -/
abbrev TwoViewEstimator := RansacOptions → List V3 → List V3 → Option RelReport

/-- The external `LORANSAC<GR6PEstimator, GR8PEstimator>` engine used in
the general branch. -/
abbrev RelRansac := RansacOptions → List GRObs → List GRObs → Option RelReport

/-- The precondition sequence of `EstimateGeneralizedRelativePose`
(lines 202-205): only the equality of the two 2D-point array lengths, then
`ThrowCheckCameras` for each view, then `options.Check()`. There is no
check relating a view's `camera_idxs` length to its 2D-point array length. -/
def relPreChecks (opts : RansacOptions) (points2D1 points2D2 : List V2)
    (camera_idxs1 camera_idxs2 : List ℕ) (cams_from_rig : List Rigid3dQ)
    (cameras : List Camera) : CheckOutcome :=
  if points2D1.length ≠ points2D2.length then .violation
  else
    match throwCheckCameras camera_idxs1 cams_from_rig cameras with
    | .ok =>
      match throwCheckCameras camera_idxs2 cams_from_rig cameras with
      | .ok => ransacOptionsCheck opts
      | o => o
    | o => o

/-- The short-circuit conjunction
`IsPanoramicRig(camera_idxs1, ..) && IsPanoramicRig(camera_idxs2, ..)`
(line 212), propagating the undefined empty-set case. -/
def panoDispatch (camera_idxs1 camera_idxs2 : List ℕ)
    (cams_from_rig : List Rigid3dQ) : Option Bool :=
  match isPanoramicRig camera_idxs1 cams_from_rig with
  | none => none
  | some false => some false
  | some true => isPanoramicRig camera_idxs2 cams_from_rig

/-- The panoramic-branch rays (lines 217-237): back-project each pixel and
rotate the normalized ray into the rig-aligned frame
(`cams_from_rig[idx].rotation.inverse() * ray`), zero ray on failed
back-projection. -/
def buildPanoRays (normalize : Normalize) (cameras : List Camera)
    (cams_from_rig : List Rigid3dQ) (camera_idxs : List ℕ)
    (points2D : List V2) (numPoints : ℕ) : List V3 :=
  (List.range numPoints).map fun i =>
    let cidx := camera_idxs.getD i 0
    match (cameras.getD cidx defaultCamera).camFromImg (points2D.getD i (0, 0)) with
    | some cp =>
      qApply (qInv (cams_from_rig.getD cidx rigidDefault).rotation) (normalize (cp.1, cp.2, 1))
    | none => v3zero

/-- The general-branch observations (lines 250-270): rig extrinsic plus
normalized camera-frame ray, zero ray on failed back-projection. -/
def buildGRObs (normalize : Normalize) (cameras : List Camera)
    (cams_from_rig : List Rigid3dQ) (camera_idxs : List ℕ)
    (points2D : List V2) (numPoints : ℕ) : List GRObs :=
  (List.range numPoints).map fun i =>
    let cidx := camera_idxs.getD i 0
    let ray :=
      match (cameras.getD cidx defaultCamera).camFromImg (points2D.getD i (0, 0)) with
      | some cp => normalize (cp.1, cp.2, 1)
      | none => v3zero
    { camFromRig := cams_from_rig.getD cidx rigidDefault, rayInCam := ray }

/-- The caller-owned output locations of `EstimateGeneralizedRelativePose`.
The two pose outputs are `std::optional`s, unset (`none`) until written. -/
structure RelOutputs where
  rig2_from_rig1 : Option Rigid3dQ
  pano2_from_pano1 : Option Rigid3dQ
  num_inliers : ℕ
  inlier_mask : List Bool
  deriving DecidableEq

/-- Outcome of a relative-pose call: `ok`/`fail` carry the caller's output
storage after the call (unchanged on failure). -/
inductive RelOutcome
  | ok (r : RelOutputs)
  | fail (r : RelOutputs)
  | violation
  | ub
  deriving DecidableEq

/-- `EstimateGeneralizedRelativePose`: checks, the zero-correspondence
early return, panoramic dispatch, and one of the two kernel invocations;
on success exactly one pose output is written. -/
def estimateGeneralizedRelativePose (normalize : Normalize)
    (twoView : TwoViewEstimator) (grRansac : RelRansac) (opts : RansacOptions)
    (points2D1 points2D2 : List V2) (camera_idxs1 camera_idxs2 : List ℕ)
    (cams_from_rig : List Rigid3dQ) (cameras : List Camera)
    (outs : RelOutputs) : RelOutcome :=
  match relPreChecks opts points2D1 points2D2 camera_idxs1 camera_idxs2
      cams_from_rig cameras with
  | .violation => .violation
  | .ub => .ub
  | .ok =>
    if points2D1.length = 0 then .fail outs
    else
      match panoDispatch camera_idxs1 camera_idxs2 cams_from_rig with
      | none => .ub
      | some true =>
        match twoView opts
            (buildPanoRays normalize cameras cams_from_rig camera_idxs1 points2D1
              points2D1.length)
            (buildPanoRays normalize cameras cams_from_rig camera_idxs2 points2D2
              points2D1.length) with
        | some report =>
          .ok { outs with
                pano2_from_pano1 := some report.model
                num_inliers := report.numInliers
                inlier_mask := report.inlierMask }
        | none => .fail outs
      | some false =>
        match grRansac opts
            (buildGRObs normalize cameras cams_from_rig camera_idxs1 points2D1
              points2D1.length)
            (buildGRObs normalize cameras cams_from_rig camera_idxs2 points2D2
              points2D1.length) with
        | some report =>
          .ok { outs with
                rig2_from_rig1 := some report.model
                num_inliers := report.numInliers
                inlier_mask := report.inlierMask }
        | none => .fail outs

/-! ### `RefineGeneralizedAbsolutePose` (lines 285-425) -/

/-- Refinement options (`AbsolutePoseRefinementOptions`), reduced to the
fields `generalized_pose.cc` reads. Solver-configuration fields
(`loss_function_scale`, `gradient_tolerance`, `max_num_iterations`,
`print_summary`) are forwarded to the external solver and logger and do
not influence which parameters may move. -/
structure RefineOptions where
  refine_focal_length : Bool
  refine_extra_params : Bool

/-- Constancy status of a camera's intrinsic parameter block after problem
construction: never added to the problem, added and set wholly constant,
or added with a subset manifold whose listed coordinates are fixed. -/
inductive ParamPolicy
  | notInProblem
  | constantBlock
  | subsetConst (idxs : List ℕ)
  deriving DecidableEq

/-- `camera_counts` (lines 310, 327): the number of inlier correspondences
assigned to each camera. -/
def cameraCounts (inlier_mask : List Bool) (camera_idxs : List ℕ)
    (numCameras : ℕ) : List ℕ :=
  (List.range numCameras).map fun c =>
    ((inlier_mask.zip camera_idxs).filter fun p => p.1 && decide (p.2 = c)).length

/-- `problem.NumResiduals()` as a block count: one residual block is added
per inlier correspondence (lines 321-340). -/
def numResidualsOf (inlier_mask : List Bool) : ℕ :=
  inlier_mask.countP id

/-- `camera_params_const` (lines 360-379): principal-point indices always,
focal-length indices unless `refine_focal_length`, extra-param indices
unless `refine_extra_params`, inserted in that order. -/
def cameraParamsConstList (opts : RefineOptions) (cam : Camera) : List ℕ :=
  cam.ppIdxs ++ (if opts.refine_focal_length then [] else cam.flIdxs) ++
    (if opts.refine_extra_params then [] else cam.epIdxs)

/-- The constancy policy applied to camera `i`'s parameter block
(lines 342-390): with zero residuals no parameterization happens and no
block was ever added; a camera with zero inlier count is skipped; with
both refine flags off the whole block is set constant; otherwise the
constant-subset list is built and, when it covers every parameter, the
whole block is set constant, else a subset manifold is attached. -/
def cameraPolicyOf (opts : RefineOptions) (numResiduals count : ℕ)
    (cam : Camera) : ParamPolicy :=
  if numResiduals = 0 then .notInProblem
  else if count = 0 then .notInProblem
  else if !opts.refine_focal_length && !opts.refine_extra_params then .constantBlock
  else if (cameraParamsConstList opts cam).length = cam.params.length then .constantBlock
  else .subsetConst (cameraParamsConstList opts cam)

/-- The part of the Ceres problem the claims observe: the residual count
and the per-camera intrinsic-block policies. (The rig extrinsic blocks of
touched cameras and every inlier 3D point block are also set constant;
the rig pose rotation gets a quaternion manifold.) -/
structure Problem where
  numResiduals : ℕ
  cameraCounts : List ℕ
  cameraPolicies : List ParamPolicy

def buildProblem (opts : RefineOptions) (inlier_mask : List Bool)
    (camera_idxs : List ℕ) (cameras : List Camera) : Problem :=
  let counts := cameraCounts inlier_mask camera_idxs cameras.length
  let nRes := numResidualsOf inlier_mask
  { numResiduals := nRes
    cameraCounts := counts
    cameraPolicies := (List.range cameras.length).map fun i =>
      cameraPolicyOf opts nRes (counts.getD i 0) (cameras.getD i defaultCamera) }

/-- The mutable parameter buffers visible to the solver: the rig pose
(caller storage, mutated in place), the camera intrinsic buffers (caller
storage), and the local copies `cams_from_rig_copy` and `points3D_copy`
(lines 314-315). -/
structure SolverState where
  rigRotation : Quat
  rigTranslation : V3
  cameraParams : List (List ℚ)
  camsFromRig : List Rigid3dQ
  points3D : List V3

/-- `ceres::Solver::Summary`, reduced to `IsSolutionUsable()`. -/
structure Summary where
  usable : Bool

/-- The external Ceres solve: it rewrites the parameter buffers and
produces a summary. -/
abbrev Solver := Problem → SolverState → SolverState × Summary

/-- The external `ceres::Covariance` computation over the rig pose blocks;
`none` models `!covariance.Compute(...)`. -/
abbrev CovOracle := Problem → SolverState → Option (List ℚ)

/-- The precondition sequence of `RefineGeneralizedAbsolutePose`
(lines 294-301): four length equalities, then `min_element`/`max_element`
over `camera_idxs` — again undefined behavior on an empty `camera_idxs`. -/
def refinePreChecks (inlier_mask : List Bool) (points2D : List V2)
    (points3D : List V3) (camera_idxs : List ℕ)
    (cams_from_rig : List Rigid3dQ) (cameras : List Camera) : CheckOutcome :=
  if points2D.length ≠ inlier_mask.length then .violation
  else if points2D.length ≠ points3D.length then .violation
  else if points2D.length ≠ camera_idxs.length then .violation
  else if cams_from_rig.length ≠ cameras.length then .violation
  else
    match camera_idxs.max? with
    | none => .ub
    | some mx => if mx < cameras.length then .ok else .violation

/-- Write the solver's camera-parameter buffers back into the camera list.
A block that was never added to the problem (`notInProblem`) was never
handed to the solver, so that camera keeps its original buffer. -/
def blockWriteback (cameras : List Camera) (prob : Problem)
    (solved : List (List ℚ)) : List Camera :=
  (List.range cameras.length).map fun i =>
    let cam := cameras.getD i defaultCamera
    if prob.cameraPolicies.getD i .notInProblem = .notInProblem then cam
    else { cam with params := solved.getD i [] }

/-- The caller-visible state after a completed `RefineGeneralizedAbsolutePose`
call: the returned flag, the (possibly mutated in place) rig pose and
cameras, the caller's untouched `cams_from_rig` and `points3D` storage,
and the covariance output location. -/
structure RefineResult where
  success : Bool
  rig_from_world : Rigid3dQ
  cameras : List Camera
  cams_from_rig : List Rigid3dQ
  points3D : List V3
  cov : Option (List ℚ)

inductive RefineOutcome
  | result (r : RefineResult)
  | violation
  | ub

/-- The parameter buffers as the solve starts: the caller's rig pose and
camera buffers, and the local copies of `cams_from_rig` and `points3D`
(lines 314-315: `points3D_copy = points3D; cams_from_rig_copy = cams_from_rig`). -/
def refineInitState (rig_from_world : Rigid3dQ) (cameras : List Camera)
    (cams_from_rig : List Rigid3dQ) (points3D : List V3) : SolverState :=
  { rigRotation := rig_from_world.rotation
    rigTranslation := rig_from_world.translation
    cameraParams := cameras.map (·.params)
    camsFromRig := cams_from_rig
    points3D := points3D }

/-- The caller-visible state after the checks passed: problem construction,
the Ceres solve, covariance extraction when requested and at least one
residual exists (lines 412-422, returning failure when `Compute` fails),
and finally `summary.IsSolutionUsable()`. With zero residuals no parameter
block was ever added, so the solve leaves the rig pose and every camera
untouched; the caller's `cams_from_rig` and `points3D` storage is returned
as it came in, since the solve operated on the local copies. -/
def refineBody (solver : Solver) (covOracle : CovOracle) (opts : RefineOptions)
    (inlier_mask : List Bool) (points3D : List V3) (camera_idxs : List ℕ)
    (cams_from_rig : List Rigid3dQ) (rig_from_world : Rigid3dQ)
    (cameras : List Camera) (covRequested : Bool) : RefineResult :=
  let prob := buildProblem opts inlier_mask camera_idxs cameras
  let solved := solver prob (refineInitState rig_from_world cameras cams_from_rig points3D)
  let st1 := solved.1
  let summary := solved.2
  let rig1 : Rigid3dQ :=
    if prob.numResiduals = 0 then rig_from_world
    else ⟨st1.rigRotation, st1.rigTranslation⟩
  let cameras1 := blockWriteback cameras prob st1.cameraParams
  if covRequested && decide (0 < prob.numResiduals) then
    match covOracle prob st1 with
    | none => ⟨false, rig1, cameras1, cams_from_rig, points3D, none⟩
    | some c => ⟨summary.usable, rig1, cameras1, cams_from_rig, points3D, some c⟩
  else ⟨summary.usable, rig1, cameras1, cams_from_rig, points3D, none⟩

/-- `RefineGeneralizedAbsolutePose`: the precondition sequence followed by
the solve; every path past the checks returns a result (failure results
included — in-place mutation is not rolled back). -/
def refineGeneralizedAbsolutePose (solver : Solver) (covOracle : CovOracle)
    (opts : RefineOptions) (inlier_mask : List Bool) (points2D : List V2)
    (points3D : List V3) (camera_idxs : List ℕ)
    (cams_from_rig : List Rigid3dQ) (rig_from_world : Rigid3dQ)
    (cameras : List Camera) (covRequested : Bool) : RefineOutcome :=
  match refinePreChecks inlier_mask points2D points3D camera_idxs cams_from_rig cameras with
  | .violation => .violation
  | .ub => .ub
  | .ok =>
    .result (refineBody solver covOracle opts inlier_mask points3D camera_idxs
      cams_from_rig rig_from_world cameras covRequested)

/-- What it means for a solver to honor the constancy the problem declares
for the camera intrinsic blocks (the documented Ceres contract):
constant blocks come back unchanged, subset-manifold blocks keep their
length and their fixed coordinates, and the buffer list keeps its length.
Blocks not in the problem carry no obligation here: they are enforced
structurally by `blockWriteback`, since they were never handed over. -/
def RespectsCameraPolicies (solver : Solver) : Prop :=
  ∀ prob st,
    (solver prob st).1.cameraParams.length = st.cameraParams.length ∧
    ∀ i,
      (prob.cameraPolicies.getD i .notInProblem = .constantBlock →
        (solver prob st).1.cameraParams.getD i [] = st.cameraParams.getD i []) ∧
      (∀ idxs, prob.cameraPolicies.getD i .notInProblem = .subsetConst idxs →
        ((solver prob st).1.cameraParams.getD i []).length
            = (st.cameraParams.getD i []).length ∧
        ∀ j ∈ idxs, ((solver prob st).1.cameraParams.getD i []).getD j 0
            = (st.cameraParams.getD i []).getD j 0)

/-! ### Concrete fixtures used by counterexamples and witnesses -/

/-- A concrete stand-in for Eigen's `.normalized()`. -/
def idNormalize : Normalize := fun v => v

/-- A concrete camera: identity back-projection, threshold conversion
halving the pixel error, three intrinsics split across the three groups. -/
def wCam : Camera :=
  { camFromImg := fun p => some p
    camFromImgThreshold := fun t => t / 2
    params := [1, 2, 3]
    ppIdxs := [0]
    flIdxs := [1]
    epIdxs := [2] }

/-- A two-view estimator that always succeeds. -/
def constTwoView : TwoViewEstimator := fun _ _ _ => some ⟨rigidDefault, 1, [true]⟩

/-- A two-view estimator that always fails. -/
def failTwoView : TwoViewEstimator := fun _ _ _ => none

/-- A generalized-relative engine that always succeeds. -/
def constGR : RelRansac := fun _ _ _ => some ⟨rigidDefault, 2, [true]⟩

/-- A generalized-relative engine that always fails. -/
def failGR : RelRansac := fun _ _ _ => none

/-- An absolute-pose engine that always succeeds, with distinct plain and
unique inlier counts. -/
def constAbsRansac : AbsRansac := fun _ _ _ _ => some ⟨rigidDefault, 3, 2, [true]⟩

/-- Freshly initialized relative-pose outputs: both optionals unset. -/
def relOutsInit : RelOutputs := ⟨none, none, 0, []⟩

/-- A one-point 2D correspondence list. -/
def onePt : List V2 := [(0, 0)]

/-- A two-point 2D correspondence list. -/
def twoPts : List V2 := [(0, 0), (0, 0)]

/-- The chained-merge input for C1: in input order `p, r, q` with
`p = (1, 9e-6, 0)`, `r = (1, 0, 0)`, `q = (1, 0, 9e-6)`. Both `p` and `q`
are within the 1e-5 tolerance of `r`, but not of each other. -/
def chainPts : List V3 :=
  [(1, 9 / 1000000, 0), (1, 0, 0), (1, 0, 9 / 1000000)]

/-- Two identity-rotation rig extrinsics whose optical centers
`(1e-7, 0, 0)` and `(3e-7, 0, 0)` both lie within 1e-6 of the origin. -/
def c4Cams : List Rigid3dQ :=
  [⟨(1, 0, 0, 0), (-(1 / 10000000), 0, 0)⟩, ⟨(1, 0, 0, 0), (-(3 / 10000000), 0, 0)⟩]

/-- Two rig extrinsics with clearly separated optical centers `(0, 0, 0)`
and `(-1, 0, 0)`. -/
def sepCams : List Rigid3dQ := [rigidDefault, ⟨(1, 0, 0, 0), (1, 0, 0)⟩]

/-- A solver that returns the buffers unchanged and a usable summary. -/
def idSolver : Solver := fun _ s => (s, ⟨true⟩)

/-- A covariance computation that always fails. -/
def noneCov : CovOracle := fun _ _ => none

/-- A covariance computation that always succeeds. -/
def someCov : CovOracle := fun _ _ => some []

/-- The result of the C7 witness call: one inlier, identity solver, no
covariance requested. -/
def c7Result : RefineResult :=
  refineBody idSolver noneCov ⟨false, false⟩ [true] [(0, 0, 0)] [0]
    [rigidDefault] rigidDefault [wCam] false

/-- The result of the C9 witness call: the second camera receives no
inlier and must come back untouched. -/
def c9Result : RefineResult :=
  refineBody idSolver someCov ⟨true, true⟩ [true, false] [(0, 0, 0), (1, 1, 1)] [0, 1]
    [rigidDefault, rigidDefault] rigidDefault [wCam, wCam] false

/-- The result of the C8 witness call: both refine flags off, one inlier,
identity solver, covariance requested and succeeding. -/
def c8Result : RefineResult :=
  refineBody idSolver someCov ⟨false, false⟩ [true] [(0, 0, 0)] [0]
    [rigidDefault] rigidDefault [wCam] true

/-! ### Helper lemmas -/

theorem sqNorm_nonneg (a : V3) : 0 ≤ sqNorm a := by
  unfold sqNorm
  have h1 := mul_self_nonneg a.1
  have h2 := mul_self_nonneg a.2.1
  have h3 := mul_self_nonneg a.2.2
  linarith

theorem isApproxQ_self (a : V3) (prec : ℚ) : isApproxQ a a prec = true := by
  simp only [isApproxQ, decide_eq_true_eq]
  have h1 : sqNorm (v3sub a a) = 0 := by simp [v3sub, sqNorm]
  rw [h1, min_self]
  exact mul_nonneg (mul_self_nonneg prec) (sqNorm_nonneg a)

theorem getD_map_range {α : Type} (f : ℕ → α) (n i : ℕ) (d : α) :
    (((List.range n).map f).getD i d) = if i < n then f i else d := by
  rw [List.getD_eq_getElem?_getD, List.getElem?_map]
  by_cases h : i < n
  · rw [List.getElem?_range h]
    simp [h]
  · rw [List.getElem?_eq_none (by simpa using Nat.le_of_not_lt h)]
    simp [h]

theorem getD_map_lt {α β : Type} (f : α → β) (l : List α) (i : ℕ) (h : i < l.length)
    (d : α) (d' : β) : ((l.map f).getD i d') = f (l.getD i d) := by
  rw [List.getD_eq_getElem?_getD, List.getElem?_map, List.getElem?_eq_getElem h,
    List.getD_eq_getElem l d h]
  rfl

theorem map_getD_range {α : Type} (l : List α) (d : α) :
    (List.range l.length).map (fun k => l.getD k d) = l := by
  apply List.ext_getElem
  · simp
  · intro i h1 h2
    simp only [List.getElem_map, List.getElem_range]
    exact List.getD_eq_getElem l d h2

theorem foldl_add_eq_sum (f : ℕ → ℚ) :
    ∀ (l : List ℕ) (a : ℚ), l.foldl (fun acc i => acc + f i) a = a + (l.map f).sum := by
  intro l
  induction l with
  | nil => intro a; simp
  | cons x xs ih =>
    intro a
    simp only [List.foldl_cons, List.map_cons, List.sum_cons]
    rw [ih]
    ring

theorem lookup_of_nodup_keys :
    ∀ (ps : List (ℕ × ℕ)) (k : ℕ), k < ps.length →
      (ps.map Prod.fst).Nodup →
      List.lookup (ps.getD k (0, 0)).1 ps = some (ps.getD k (0, 0)).2 := by
  intro ps
  induction ps with
  | nil => intro k hk _; simp at hk
  | cons hd tl ih =>
    intro k hk hnd
    simp only [List.map_cons, List.nodup_cons] at hnd
    match k with
    | 0 =>
      simp [List.lookup]
    | k + 1 =>
      have hk' : k < tl.length := by simpa using hk
      have hmem : (tl.getD k (0, 0)).1 ∈ tl.map Prod.fst := by
        rw [List.getD_eq_getElem tl (0, 0) hk']
        exact List.mem_map_of_mem Prod.fst (List.getElem_mem hk')
      have hne : (tl.getD k (0, 0)).1 ≠ hd.1 := by
        intro h
        exact hnd.1 (h ▸ hmem)
      rw [List.getD_cons_succ]
      simp only [List.lookup, beq_eq_false_iff_ne.mpr hne]
      exact ih k hk' hnd.2

/-! ### Claim theorems -/

/-- Claim C2 (code bug): a zero-correspondence call with a well-formed
camera list is claimed to return failure after its precondition checks
complete; in the source, `ThrowCheckCameras` calls `std::minmax_element`
on the empty `camera_idxs` range and dereferences the returned
past-the-end iterators before the `points2D.size() == 0` early return is
reached, which is undefined behavior, not a clean failure. -/
theorem c2_empty_call_hits_undefined_behavior :
    ∀ (normalize : Normalize) (ransac : AbsRansac),
      estimateGeneralizedAbsolutePose normalize ransac ⟨1⟩ [] [] [] [rigidDefault] [wCam]
        = AbsOutcome.ub := by
  intro _ _
  rfl

/-- Claim C3 (code bug): `EstimateGeneralizedRelativePose` is claimed to
fail with a precondition violation whenever a view's camera-index array
length differs from its 2D-point array length; the source never compares
those lengths (it only checks `points2D1.size() == points2D2.size()` and
range-checks the index arrays), so a call with a 2-entry `camera_idxs1`
and 1-point arrays passes every check and runs estimation to success. -/
theorem c3_length_mismatch_not_caught :
    ([0, 0] : List ℕ).length ≠ onePt.length ∧
    estimateGeneralizedRelativePose idNormalize constTwoView failGR ⟨1⟩
        onePt onePt [0, 0] [0] [rigidDefault] [wCam] relOutsInit
      = RelOutcome.ok ⟨none, some rigidDefault, 1, [true]⟩ := by
  constructor
  · decide
  · have hpre : relPreChecks ⟨1⟩ onePt onePt [0, 0] [0] [rigidDefault] [wCam]
        = CheckOutcome.ok := by
      norm_num [relPreChecks, throwCheckCameras, ransacOptionsCheck, onePt]
    simp only [estimateGeneralizedRelativePose, hpre]
    rfl

/-- Claim C6: the effective inlier threshold handed to the absolute-pose
consensus kernel (via `absEffectiveOptions`) is the arithmetic mean, one
term per correspondence, of each correspondence's camera's converted
threshold; when every term equals `e` the mean is exactly `e`. -/
theorem c6_threshold_is_per_correspondence_mean :
    ∀ (opts : RansacOptions) (camera_idxs : List ℕ) (cameras : List Camera) (t : ℚ),
      (absEffectiveOptions opts camera_idxs cameras).maxError
          = computeMaxErrorInCamera camera_idxs cameras opts.maxError ∧
      computeMaxErrorInCamera camera_idxs cameras t
          = (camera_idxs.map fun idx =>
              (cameras.getD idx defaultCamera).camFromImgThreshold t).sum
            / (camera_idxs.length : ℚ) ∧
      (∀ e : ℚ, camera_idxs ≠ [] →
        (∀ idx ∈ camera_idxs,
          (cameras.getD idx defaultCamera).camFromImgThreshold t = e) →
        computeMaxErrorInCamera camera_idxs cameras t = e) := by
  intro opts camera_idxs cameras t
  have hmean : computeMaxErrorInCamera camera_idxs cameras t
      = (camera_idxs.map fun idx =>
          (cameras.getD idx defaultCamera).camFromImgThreshold t).sum
        / (camera_idxs.length : ℚ) := by
    unfold computeMaxErrorInCamera
    rw [foldl_add_eq_sum, zero_add]
  refine ⟨rfl, hmean, ?_⟩
  intro e hne h
  rw [hmean]
  have hsum : (camera_idxs.map fun idx =>
      (cameras.getD idx defaultCamera).camFromImgThreshold t).sum
      = camera_idxs.length • e := by
    rw [List.sum_eq_card_nsmul _ e, List.length_map]
    intro x hx
    obtain ⟨idx, hidx, rfl⟩ := List.mem_map.mp hx
    exact h idx hidx
  rw [hsum, nsmul_eq_mul]
  have hlen : (camera_idxs.length : ℚ) ≠ 0 := by
    simp only [ne_eq, Nat.cast_eq_zero, List.length_eq_zero]
    exact hne
  field_simp

/-- Witness for C6 at three correspondences of one camera whose converted
threshold is `1/2`. -/
theorem c6_threshold_is_per_correspondence_mean_witness :
    computeMaxErrorInCamera [0, 0, 0] [wCam] 1 = 1 / 2 := by
  refine (c6_threshold_is_per_correspondence_mean ⟨1⟩ [0, 0, 0] [wCam] 1).2.2 (1 / 2)
    (by decide) ?_
  intro idx hidx
  simp only [List.mem_cons, List.not_mem_nil, or_false] at hidx
  rcases hidx with rfl | rfl | rfl <;> rfl

/-- Claim C7: a completed refinement call succeeds exactly when the
solver's usability verdict holds and, whenever a covariance output was
requested and at least one residual exists, the covariance computation
also succeeds; a failed covariance computation forces failure even for a
usable solve. -/
theorem c7_success_iff_usable_and_covariance :
    ∀ (solver : Solver) (covOracle : CovOracle) (opts : RefineOptions)
      (inlier_mask : List Bool) (points2D : List V2) (points3D : List V3)
      (camera_idxs : List ℕ) (cams_from_rig : List Rigid3dQ) (rig : Rigid3dQ)
      (cameras : List Camera) (covRequested : Bool) (r : RefineResult),
      refineGeneralizedAbsolutePose solver covOracle opts inlier_mask points2D points3D
          camera_idxs cams_from_rig rig cameras covRequested = .result r →
      r.success =
        ((if covRequested
              && decide (0 < (buildProblem opts inlier_mask camera_idxs cameras).numResiduals)
          then (covOracle (buildProblem opts inlier_mask camera_idxs cameras)
              (solver (buildProblem opts inlier_mask camera_idxs cameras)
                (refineInitState rig cameras cams_from_rig points3D)).1).isSome
          else true)
        && (solver (buildProblem opts inlier_mask camera_idxs cameras)
              (refineInitState rig cameras cams_from_rig points3D)).2.usable) := by
  intro solver covOracle opts inlier_mask points2D points3D camera_idxs cams_from_rig
    rig cameras covRequested r h
  unfold refineGeneralizedAbsolutePose at h
  split at h
  · exact absurd h (by simp)
  · exact absurd h (by simp)
  · have hr : refineBody solver covOracle opts inlier_mask points3D camera_idxs
        cams_from_rig rig cameras covRequested = r := by
      injection h
    subst hr
    unfold refineBody
    simp only
    cases hcov : covRequested
        && decide (0 < (buildProblem opts inlier_mask camera_idxs cameras).numResiduals) with
    | false => simp [hcov]
    | true =>
      cases hco : covOracle (buildProblem opts inlier_mask camera_idxs cameras)
          (solver (buildProblem opts inlier_mask camera_idxs cameras)
            (refineInitState rig cameras cams_from_rig points3D)).1 with
      | none => simp [hcov, hco]
      | some c => simp [hcov, hco]


/-- Witness for C7: at the concrete call the reported flag equals the
identity solver's usable verdict. -/
theorem c7_success_iff_usable_and_covariance_witness : c7Result.success = true :=
  (c7_success_iff_usable_and_covariance idSolver noneCov ⟨false, false⟩ [true] onePt
    [(0, 0, 0)] [0] [rigidDefault] rigidDefault [wCam] false c7Result rfl).trans rfl

/-- Claim C9: a completed refinement call returns the caller's
`cams_from_rig` and `points3D` storage untouched (the solve works on
local copies), and a camera with zero inlier correspondences is never
added to the problem and comes back unchanged. -/
theorem c9_copies_and_untouched_cameras :
    ∀ (solver : Solver) (covOracle : CovOracle) (opts : RefineOptions)
      (inlier_mask : List Bool) (points2D : List V2) (points3D : List V3)
      (camera_idxs : List ℕ) (cams_from_rig : List Rigid3dQ) (rig : Rigid3dQ)
      (cameras : List Camera) (covRequested : Bool) (r : RefineResult),
      refineGeneralizedAbsolutePose solver covOracle opts inlier_mask points2D points3D
          camera_idxs cams_from_rig rig cameras covRequested = .result r →
      r.cams_from_rig = cams_from_rig ∧ r.points3D = points3D ∧
      ∀ i, (cameraCounts inlier_mask camera_idxs cameras.length).getD i 0 = 0 →
        (buildProblem opts inlier_mask camera_idxs cameras).cameraPolicies.getD i
            .notInProblem = .notInProblem ∧
        r.cameras.getD i defaultCamera = cameras.getD i defaultCamera := by
  intro solver covOracle opts inlier_mask points2D points3D camera_idxs cams_from_rig
    rig cameras covRequested r h
  unfold refineGeneralizedAbsolutePose at h
  split at h
  · exact absurd h (by simp)
  · exact absurd h (by simp)
  · have hr : refineBody solver covOracle opts inlier_mask points3D camera_idxs
        cams_from_rig rig cameras covRequested = r := by
      injection h
    subst hr
    have hfields :
        (refineBody solver covOracle opts inlier_mask points3D camera_idxs
            cams_from_rig rig cameras covRequested).cams_from_rig = cams_from_rig ∧
        (refineBody solver covOracle opts inlier_mask points3D camera_idxs
            cams_from_rig rig cameras covRequested).points3D = points3D ∧
        (refineBody solver covOracle opts inlier_mask points3D camera_idxs
            cams_from_rig rig cameras covRequested).cameras
          = blockWriteback cameras (buildProblem opts inlier_mask camera_idxs cameras)
              ((solver (buildProblem opts inlier_mask camera_idxs cameras)
                (refineInitState rig cameras cams_from_rig points3D)).1.cameraParams) := by
      unfold refineBody
      simp only
      split
      · split <;> exact ⟨rfl, rfl, rfl⟩
      · exact ⟨rfl, rfl, rfl⟩
    refine ⟨hfields.1, hfields.2.1, ?_⟩
    intro i hcount
    have hpol : (buildProblem opts inlier_mask camera_idxs cameras).cameraPolicies.getD i
        .notInProblem = .notInProblem := by
      unfold buildProblem
      simp only
      rw [getD_map_range]
      by_cases hi : i < cameras.length
      · rw [if_pos hi]
        unfold cameraPolicyOf
        by_cases hz : numResidualsOf inlier_mask = 0
        · rw [if_pos hz]
        · rw [if_neg hz, if_pos hcount]
      · rw [if_neg hi]
    refine ⟨hpol, ?_⟩
    rw [hfields.2.2]
    unfold blockWriteback
    rw [getD_map_range]
    by_cases hi : i < cameras.length
    · rw [if_pos hi, if_pos hpol]
    · rw [if_neg hi]
      have : cameras.getD i defaultCamera = defaultCamera :=
        List.getD_eq_default _ _ (Nat.le_of_not_lt hi)
      rw [this]


/-- Witness for C9: concrete call keeping the caller's `cams_from_rig` and
`points3D`, with the untouched camera returned unchanged. -/
theorem c9_copies_and_untouched_cameras_witness :
    c9Result.cams_from_rig = [rigidDefault, rigidDefault] ∧
    c9Result.points3D = [(0, 0, 0), (1, 1, 1)] ∧
    c9Result.cameras.getD 1 defaultCamera = wCam := by
  have h := c9_copies_and_untouched_cameras idSolver someCov ⟨true, true⟩ [true, false]
    twoPts [(0, 0, 0), (1, 1, 1)] [0, 1] [rigidDefault, rigidDefault] rigidDefault
    [wCam, wCam] false c9Result rfl
  exact ⟨h.1, h.2.1, ((h.2.2 1 rfl).2).trans rfl⟩

/-- The identity solver honors every constancy declaration. -/
theorem idSolver_respects : RespectsCameraPolicies idSolver :=
  fun _ _ => ⟨rfl, fun _ => ⟨fun _ => rfl, fun _ _ => ⟨rfl, fun _ _ => rfl⟩⟩⟩

/-- The camera policy stored for an in-range camera index. -/
theorem policies_getD_lt (opts : RefineOptions) (inlier_mask : List Bool)
    (camera_idxs : List ℕ) (cameras : List Camera) (i : ℕ) (hi : i < cameras.length) :
    (buildProblem opts inlier_mask camera_idxs cameras).cameraPolicies.getD i .notInProblem
      = cameraPolicyOf opts (numResidualsOf inlier_mask)
          ((cameraCounts inlier_mask camera_idxs cameras.length).getD i 0)
          (cameras.getD i defaultCamera) := by
  unfold buildProblem
  simp only
  rw [getD_map_range, if_pos hi]

/-- Every camera policy is one of: not in the problem, wholly constant, or
a subset manifold fixing exactly `camera_params_const`. -/
theorem policy_cases (opts : RefineOptions) (nRes cnt : ℕ) (cam : Camera) :
    cameraPolicyOf opts nRes cnt cam = .notInProblem ∨
    cameraPolicyOf opts nRes cnt cam = .constantBlock ∨
    cameraPolicyOf opts nRes cnt cam = .subsetConst (cameraParamsConstList opts cam) := by
  unfold cameraPolicyOf
  split
  · exact Or.inl rfl
  · split
    · exact Or.inl rfl
    · split
      · exact Or.inr (Or.inl rfl)
      · split
        · exact Or.inr (Or.inl rfl)
        · exact Or.inr (Or.inr rfl)

/-- With both refine flags off, no subset manifold is ever created. -/
theorem policy_cases_flags_off (opts : RefineOptions) (nRes cnt : ℕ) (cam : Camera)
    (hf : opts.refine_focal_length = false) (he : opts.refine_extra_params = false) :
    cameraPolicyOf opts nRes cnt cam = .notInProblem ∨
    cameraPolicyOf opts nRes cnt cam = .constantBlock := by
  unfold cameraPolicyOf
  rw [hf, he]
  split
  · exact Or.inl rfl
  · split
    · exact Or.inl rfl
    · split
      · exact Or.inr rfl
      · rename_i hcond
        exact (hcond (by simp)).elim

theorem ne_notInProblem_of_constantBlock {P : ParamPolicy} (h : P = .constantBlock) :
    ¬ P = ParamPolicy.notInProblem := fun hc => by
  rw [h] at hc
  exact ParamPolicy.noConfusion hc

theorem ne_notInProblem_of_subsetConst {P : ParamPolicy} {l : List ℕ}
    (h : P = .subsetConst l) : ¬ P = ParamPolicy.notInProblem := fun hc => by
  rw [h] at hc
  exact ParamPolicy.noConfusion hc

/-- Claim C8: for a solver honoring the declared constancy, refinement with
both refine flags off returns every camera's parameter vector bit-identical;
with either flag on, principal-point entries are unchanged, and the entries
of each group whose flag is off are unchanged as well. -/
theorem c8_intrinsics_fixed_per_flags :
    ∀ (solver : Solver) (covOracle : CovOracle) (opts : RefineOptions)
      (inlier_mask : List Bool) (points2D : List V2) (points3D : List V3)
      (camera_idxs : List ℕ) (cams_from_rig : List Rigid3dQ) (rig : Rigid3dQ)
      (cameras : List Camera) (covRequested : Bool),
      RespectsCameraPolicies solver →
      ∀ r, refineGeneralizedAbsolutePose solver covOracle opts inlier_mask points2D
          points3D camera_idxs cams_from_rig rig cameras covRequested = .result r →
      ((opts.refine_focal_length = false ∧ opts.refine_extra_params = false) →
        ∀ i, (r.cameras.getD i defaultCamera).params
          = (cameras.getD i defaultCamera).params) ∧
      (∀ i, ∀ j ∈ (cameras.getD i defaultCamera).ppIdxs,
        ((r.cameras.getD i defaultCamera).params.getD j 0)
          = ((cameras.getD i defaultCamera).params.getD j 0)) ∧
      (opts.refine_focal_length = false →
        ∀ i, ∀ j ∈ (cameras.getD i defaultCamera).flIdxs,
          ((r.cameras.getD i defaultCamera).params.getD j 0)
            = ((cameras.getD i defaultCamera).params.getD j 0)) ∧
      (opts.refine_extra_params = false →
        ∀ i, ∀ j ∈ (cameras.getD i defaultCamera).epIdxs,
          ((r.cameras.getD i defaultCamera).params.getD j 0)
            = ((cameras.getD i defaultCamera).params.getD j 0)) := by
  intro solver covOracle opts inlier_mask points2D points3D camera_idxs cams_from_rig
    rig cameras covRequested hresp r h
  unfold refineGeneralizedAbsolutePose at h
  split at h
  · exact absurd h (by simp)
  · exact absurd h (by simp)
  · have hr : refineBody solver covOracle opts inlier_mask points3D camera_idxs
        cams_from_rig rig cameras covRequested = r := by
      injection h
    subst hr
    have hcameras :
        (refineBody solver covOracle opts inlier_mask points3D camera_idxs
            cams_from_rig rig cameras covRequested).cameras
          = blockWriteback cameras (buildProblem opts inlier_mask camera_idxs cameras)
              ((solver (buildProblem opts inlier_mask camera_idxs cameras)
                (refineInitState rig cameras cams_from_rig points3D)).1.cameraParams) := by
      unfold refineBody
      simp only
      split
      · split <;> rfl
      · rfl
    rw [hcameras]
    have hresp' := hresp (buildProblem opts inlier_mask camera_idxs cameras)
      (refineInitState rig cameras cams_from_rig points3D)
    have horig : ∀ i,
        (refineInitState rig cameras cams_from_rig points3D).cameraParams.getD i []
          = (cameras.getD i defaultCamera).params := by
      intro i
      by_cases hi : i < cameras.length
      · exact getD_map_lt (fun c => c.params) cameras i hi defaultCamera []
      · have h1 : (cameras.map fun c => c.params).getD i [] = [] :=
          List.getD_eq_default _ _ (by simpa using Nat.le_of_not_lt hi)
        have h2 : cameras.getD i defaultCamera = defaultCamera :=
          List.getD_eq_default _ _ (Nat.le_of_not_lt hi)
        show (cameras.map fun c => c.params).getD i [] = _
        rw [h1, h2]
        rfl
    have hconst : ∀ i,
        (buildProblem opts inlier_mask camera_idxs cameras).cameraPolicies.getD i
            .notInProblem = .constantBlock →
        ((solver (buildProblem opts inlier_mask camera_idxs cameras)
            (refineInitState rig cameras cams_from_rig points3D)).1.cameraParams).getD i []
          = (cameras.getD i defaultCamera).params := by
      intro i hp
      rw [(hresp'.2 i).1 hp, horig i]
    have hsub : ∀ i idxs,
        (buildProblem opts inlier_mask camera_idxs cameras).cameraPolicies.getD i
            .notInProblem = .subsetConst idxs →
        ∀ j ∈ idxs,
          (((solver (buildProblem opts inlier_mask camera_idxs cameras)
              (refineInitState rig cameras cams_from_rig points3D)).1.cameraParams).getD
                i []).getD j 0
            = ((cameras.getD i defaultCamera).params.getD j 0) := by
      intro i idxs hp j hj
      rw [((hresp'.2 i).2 idxs hp).2 j hj, horig i]
    have hwb : ∀ i, i < cameras.length →
        ((blockWriteback cameras (buildProblem opts inlier_mask camera_idxs cameras)
            ((solver (buildProblem opts inlier_mask camera_idxs cameras)
              (refineInitState rig cameras cams_from_rig points3D)).1.cameraParams)).getD
          i defaultCamera).params
        = (if (buildProblem opts inlier_mask camera_idxs cameras).cameraPolicies.getD i
              .notInProblem = .notInProblem
           then (cameras.getD i defaultCamera).params
           else ((solver (buildProblem opts inlier_mask camera_idxs cameras)
              (refineInitState rig cameras cams_from_rig points3D)).1.cameraParams).getD
                i []) := by
      intro i hi
      unfold blockWriteback
      rw [getD_map_range, if_pos hi]
      by_cases hp : (buildProblem opts inlier_mask camera_idxs cameras).cameraPolicies.getD i
          .notInProblem = .notInProblem
      · rw [if_pos hp, if_pos hp]
      · rw [if_neg hp, if_neg hp]
    have hout : ∀ i, ¬ i < cameras.length →
        (blockWriteback cameras (buildProblem opts inlier_mask camera_idxs cameras)
            ((solver (buildProblem opts inlier_mask camera_idxs cameras)
              (refineInitState rig cameras cams_from_rig points3D)).1.cameraParams)).getD
          i defaultCamera = defaultCamera ∧
        cameras.getD i defaultCamera = defaultCamera := by
      intro i hi
      constructor
      · unfold blockWriteback
        rw [getD_map_range, if_neg hi]
      · exact List.getD_eq_default _ _ (Nat.le_of_not_lt hi)
    have hEntry : ∀ i j,
        (j ∈ cameraParamsConstList opts (cameras.getD i defaultCamera)) →
        (((blockWriteback cameras (buildProblem opts inlier_mask camera_idxs cameras)
            ((solver (buildProblem opts inlier_mask camera_idxs cameras)
              (refineInitState rig cameras cams_from_rig points3D)).1.cameraParams)).getD
          i defaultCamera).params.getD j 0)
          = ((cameras.getD i defaultCamera).params.getD j 0) := by
      intro i j hj
      by_cases hi : i < cameras.length
      · rw [hwb i hi]
        have hp0 := policy_cases opts (numResidualsOf inlier_mask)
          ((cameraCounts inlier_mask camera_idxs cameras.length).getD i 0)
          (cameras.getD i defaultCamera)
        rw [← policies_getD_lt opts inlier_mask camera_idxs cameras i hi] at hp0
        rcases hp0 with hp | hp | hp
        · rw [if_pos hp]
        · rw [if_neg (ne_notInProblem_of_constantBlock hp), hconst i hp]
        · rw [if_neg (ne_notInProblem_of_subsetConst hp)]
          exact hsub i _ hp j hj
      · rw [(hout i hi).1, (hout i hi).2]
    refine ⟨?_, ?_, ?_, ?_⟩
    · rintro ⟨hf, he⟩ i
      by_cases hi : i < cameras.length
      · rw [hwb i hi]
        have hp0 := policy_cases_flags_off opts (numResidualsOf inlier_mask)
          ((cameraCounts inlier_mask camera_idxs cameras.length).getD i 0)
          (cameras.getD i defaultCamera) hf he
        rw [← policies_getD_lt opts inlier_mask camera_idxs cameras i hi] at hp0
        rcases hp0 with hp | hp
        · rw [if_pos hp]
        · rw [if_neg (ne_notInProblem_of_constantBlock hp), hconst i hp]
      · rw [(hout i hi).1, (hout i hi).2]
    · intro i j hj
      exact hEntry i j (List.mem_append_left _ (List.mem_append_left _ hj))
    · intro hf i j hj
      refine hEntry i j (List.mem_append_left _ (List.mem_append_right _ ?_))
      rw [hf]
      simpa using hj
    · intro he i j hj
      refine hEntry i j (List.mem_append_right _ ?_)
      rw [he]
      simpa using hj


/-- Witness for C8: at the concrete call the camera comes back with its
parameter vector bit-identical. -/
theorem c8_intrinsics_fixed_per_flags_witness :
    (c8Result.cameras.getD 0 defaultCamera).params = [1, 2, 3] :=
  ((c8_intrinsics_fixed_per_flags idSolver someCov ⟨false, false⟩ [true] onePt
    [(0, 0, 0)] [0] [rigidDefault] rigidDefault [wCam] true idSolver_respects
    c8Result rfl).1 ⟨rfl, rfl⟩ 0).trans rfl

/-- The short-circuit dispatch is `some true` exactly when both views'
referenced cameras are panoramic. -/
theorem panoDispatch_some_true_iff (i1 i2 : List ℕ) (cams : List Rigid3dQ) :
    panoDispatch i1 i2 cams = some true ↔
      isPanoramicRig i1 cams = some true ∧ isPanoramicRig i2 cams = some true := by
  unfold panoDispatch
  cases h1 : isPanoramicRig i1 cams with
  | none => simp [h1]
  | some b => cases b with
    | false => simp [h1]
    | true => simp [h1]

/-- Claim C5: on success of `EstimateGeneralizedRelativePose` exactly one
pose output is written — `pano2_from_pano1` when both views' referenced
cameras are panoramic, `rig2_from_rig1` otherwise — the other remaining
unset; on failure neither output is written. -/
theorem c5_exactly_one_pose_output :
    ∀ (normalize : Normalize) (twoView : TwoViewEstimator) (grRansac : RelRansac)
      (opts : RansacOptions) (points2D1 points2D2 : List V2)
      (camera_idxs1 camera_idxs2 : List ℕ) (cams_from_rig : List Rigid3dQ)
      (cameras : List Camera) (outs : RelOutputs),
      outs.rig2_from_rig1 = none → outs.pano2_from_pano1 = none →
      (∀ r, estimateGeneralizedRelativePose normalize twoView grRansac opts points2D1
          points2D2 camera_idxs1 camera_idxs2 cams_from_rig cameras outs
          = RelOutcome.ok r →
        ((isPanoramicRig camera_idxs1 cams_from_rig = some true ∧
          isPanoramicRig camera_idxs2 cams_from_rig = some true) →
          r.pano2_from_pano1.isSome = true ∧ r.rig2_from_rig1 = none) ∧
        (¬(isPanoramicRig camera_idxs1 cams_from_rig = some true ∧
           isPanoramicRig camera_idxs2 cams_from_rig = some true) →
          r.rig2_from_rig1.isSome = true ∧ r.pano2_from_pano1 = none)) ∧
      (∀ r, estimateGeneralizedRelativePose normalize twoView grRansac opts points2D1
          points2D2 camera_idxs1 camera_idxs2 cams_from_rig cameras outs
          = RelOutcome.fail r → r = outs) := by
  intro normalize twoView grRansac opts p1 p2 i1 i2 cams cameras outs h0 h1
  constructor
  · intro r h
    unfold estimateGeneralizedRelativePose at h
    split at h
    · exact absurd h (by simp)
    · exact absurd h (by simp)
    · split at h
      · exact absurd h (by simp)
      · split at h
        · exact absurd h (by simp)
        · -- panoDispatch = some true
          rename_i hdisp
          split at h
          · rename_i report hrep
            have hre : ({ outs with
                pano2_from_pano1 := some report.model
                num_inliers := report.numInliers
                inlier_mask := report.inlierMask } : RelOutputs) = r := by
              injection h
            subst hre
            constructor
            · intro _
              exact ⟨rfl, h0⟩
            · intro hnot
              exact absurd ((panoDispatch_some_true_iff i1 i2 cams).mp hdisp) hnot
          · exact absurd h (by simp)
        · -- panoDispatch = some false
          rename_i hdisp
          split at h
          · rename_i report hrep
            have hre : ({ outs with
                rig2_from_rig1 := some report.model
                num_inliers := report.numInliers
                inlier_mask := report.inlierMask } : RelOutputs) = r := by
              injection h
            subst hre
            constructor
            · intro hboth
              have hcontra := (panoDispatch_some_true_iff i1 i2 cams).mpr hboth
              rw [hdisp] at hcontra
              exact absurd hcontra (by simp)
            · intro _
              exact ⟨rfl, h1⟩
          · exact absurd h (by simp)
  · intro r h
    unfold estimateGeneralizedRelativePose at h
    split at h
    · exact absurd h (by simp)
    · exact absurd h (by simp)
    · split at h
      · have houts : outs = r := by injection h
        exact houts.symm
      · split at h
        · exact absurd h (by simp)
        · split at h
          · exact absurd h (by simp)
          · have houts : outs = r := by injection h
            exact houts.symm
        · split at h
          · exact absurd h (by simp)
          · have houts : outs = r := by injection h
            exact houts.symm

/-- Witness for C5 at a one-camera (hence panoramic) two-view call: the
panoramic output is written and the rig output stays unset. -/
theorem c5_exactly_one_pose_output_witness :
    (RelOutputs.mk none (some rigidDefault) 1 [true]).pano2_from_pano1.isSome = true ∧
    (RelOutputs.mk none (some rigidDefault) 1 [true]).rig2_from_rig1 = none := by
  have hpre : relPreChecks ⟨1⟩ onePt onePt [0] [0] [rigidDefault] [wCam]
      = CheckOutcome.ok := by
    norm_num [relPreChecks, throwCheckCameras, ransacOptionsCheck, onePt]
  have hres : estimateGeneralizedRelativePose idNormalize constTwoView failGR ⟨1⟩
      onePt onePt [0] [0] [rigidDefault] [wCam] relOutsInit
      = RelOutcome.ok ⟨none, some rigidDefault, 1, [true]⟩ := by
    simp only [estimateGeneralizedRelativePose, hpre]
    rfl
  exact ((c5_exactly_one_pose_output idNormalize constTwoView failGR ⟨1⟩ onePt onePt
    [0] [0] [rigidDefault] [wCam] relOutsInit rfl rfl).1 _ hres).1 ⟨rfl, rfl⟩

/-- Claim C10: the absolute estimator reports the unique-point-deduplicated
inlier count (its consensus engine is handed the ids from
`ComputeUniquePointIds`), while the relative estimator's general branch
reports the engine's plain inlier count, with no unique-id deduplication
anywhere in its path. -/
theorem c10_inlier_count_provenance :
    (∀ (normalize : Normalize) (ransac : AbsRansac) (opts : RansacOptions)
       (points2D : List V2) (points3D : List V3) (camera_idxs : List ℕ)
       (cams_from_rig : List Rigid3dQ) (cameras : List Camera) (report : AbsReport),
       absPreChecks opts points2D points3D camera_idxs cams_from_rig cameras
         = CheckOutcome.ok →
       points2D.length ≠ 0 →
       ransac (absEffectiveOptions opts camera_idxs cameras)
           (computeUniquePointIds points3D)
           (buildRigPoints normalize cameras cams_from_rig camera_idxs points2D)
           points3D = some report →
       estimateGeneralizedAbsolutePose normalize ransac opts points2D points3D
           camera_idxs cams_from_rig cameras
         = AbsOutcome.ok ⟨report.model, report.numUniqueInliers, report.inlierMask⟩) ∧
    (∀ (normalize : Normalize) (twoView : TwoViewEstimator) (grRansac : RelRansac)
       (opts : RansacOptions) (points2D1 points2D2 : List V2)
       (camera_idxs1 camera_idxs2 : List ℕ) (cams_from_rig : List Rigid3dQ)
       (cameras : List Camera) (outs : RelOutputs) (report : RelReport),
       relPreChecks opts points2D1 points2D2 camera_idxs1 camera_idxs2 cams_from_rig
         cameras = CheckOutcome.ok →
       points2D1.length ≠ 0 →
       panoDispatch camera_idxs1 camera_idxs2 cams_from_rig = some false →
       grRansac opts
           (buildGRObs normalize cameras cams_from_rig camera_idxs1 points2D1
             points2D1.length)
           (buildGRObs normalize cameras cams_from_rig camera_idxs2 points2D2
             points2D1.length) = some report →
       estimateGeneralizedRelativePose normalize twoView grRansac opts points2D1
           points2D2 camera_idxs1 camera_idxs2 cams_from_rig cameras outs
         = RelOutcome.ok { outs with
             rig2_from_rig1 := some report.model
             num_inliers := report.numInliers
             inlier_mask := report.inlierMask }) := by
  constructor
  · intro normalize ransac opts p2 p3 idxs cams cameras report hpre hlen hransac
    unfold estimateGeneralizedAbsolutePose
    simp only [hpre]
    rw [if_neg hlen]
    simp only [hransac]
  · intro normalize twoView grRansac opts p1 p2 i1 i2 cams cameras outs report
      hpre hlen hdisp hransac
    unfold estimateGeneralizedRelativePose
    simp only [hpre]
    rw [if_neg hlen]
    simp only [hdisp, hransac]

/-- Witness for C10: the absolute call reports the unique count (2, not the
plain 3) of its engine's report; the relative call on separated-center
cameras reports its engine's plain count. -/
theorem c10_inlier_count_provenance_witness :
    estimateGeneralizedAbsolutePose idNormalize constAbsRansac ⟨1⟩ onePt [(0, 0, 0)]
        [0] [rigidDefault] [wCam]
      = AbsOutcome.ok ⟨rigidDefault, 2, [true]⟩ ∧
    estimateGeneralizedRelativePose idNormalize failTwoView constGR ⟨1⟩ twoPts twoPts
        [0, 1] [0, 0] sepCams [wCam, wCam] relOutsInit
      = RelOutcome.ok ⟨some rigidDefault, none, 2, [true]⟩ := by
  have hpreA : absPreChecks ⟨1⟩ onePt [(0, 0, 0)] [0] [rigidDefault] [wCam]
      = CheckOutcome.ok := by
    norm_num [absPreChecks, throwCheckCameras, ransacOptionsCheck, onePt]
  have hpreR : relPreChecks ⟨1⟩ twoPts twoPts [0, 1] [0, 0] sepCams [wCam, wCam]
      = CheckOutcome.ok := by
    norm_num [relPreChecks, throwCheckCameras, ransacOptionsCheck, twoPts, sepCams]
  have hpano : isPanoramicRig [0, 1] sepCams = some false := by
    have hsd : sortedDedup [0, 1] = [0, 1] := rfl
    simp only [isPanoramicRig, hsd, List.all_cons, List.all_nil, Bool.and_true]
    norm_num [sepCams, originInRig, rigidDefault, qInv, qnormSq, qconj, qsmul,
      qApply, qvec, cross, v3smul, v3add, v3neg, v3zero, isApproxQ, sqNorm, v3sub,
      min_def]
  have hdisp : panoDispatch [0, 1] [0, 0] sepCams = some false := by
    unfold panoDispatch
    rw [hpano]
  constructor
  · exact (c10_inlier_count_provenance).1 idNormalize constAbsRansac ⟨1⟩ onePt
      [(0, 0, 0)] [0] [rigidDefault] [wCam] ⟨rigidDefault, 3, 2, [true]⟩ hpreA
      (by norm_num [onePt]) rfl
  · exact (c10_inlier_count_provenance).2 idNormalize failTwoView constGR ⟨1⟩ twoPts
      twoPts [0, 1] [0, 0] sepCams [wCam, wCam] relOutsInit ⟨rigidDefault, 2, [true]⟩
      hpreR (by norm_num [twoPts]) hdisp rfl

/-- `std::set` iteration order does not depend on insertion order: the
sorted deduplicated index list is permutation-invariant. -/
theorem sortedDedup_perm_eq {l l' : List ℕ} (h : l.Perm l') :
    sortedDedup l = sortedDedup l' :=
  List.eq_of_perm_of_sorted
    ((List.perm_insertionSort _ _).trans (h.dedup.trans (List.perm_insertionSort _ _).symm))
    (List.sorted_insertionSort _ _) (List.sorted_insertionSort _ _)

theorem mem_sortedDedup {l : List ℕ} {x : ℕ} : x ∈ sortedDedup l ↔ x ∈ l := by
  unfold sortedDedup
  rw [(List.perm_insertionSort _ _).mem_iff, List.mem_dedup]

theorem sortedDedup_eq_nil_iff {l : List ℕ} : sortedDedup l = [] ↔ l = [] := by
  constructor
  · intro h
    have hp := List.perm_insertionSort (fun a b : ℕ => a ≤ b) l.dedup
    rw [show List.insertionSort (fun a b : ℕ => a ≤ b) l.dedup = sortedDedup l from rfl,
      h] at hp
    exact (List.dedup_eq_nil l).mp hp.symm.eq_nil
  · intro h
    subst h
    rfl

/-- Claim C4 counterexample: both referenced cameras' rig-frame optical
centers, `(1e-7, 0, 0)` and `(3e-7, 0, 0)`, lie within 1e-6 per axis of the
common point `(0, 0, 0)`, yet panoramic detection returns false: Eigen's
`isApprox` tolerance is relative to the vectors' norms, which are tiny
here, so the claimed absolute reading of the tolerance is wrong. -/
theorem c4_within_common_tolerance_but_not_panoramic :
    perAxisWithin (originInRig (c4Cams.getD 0 rigidDefault)) v3zero (1 / 1000000) ∧
    perAxisWithin (originInRig (c4Cams.getD 1 rigidDefault)) v3zero (1 / 1000000) ∧
    isPanoramicRig [0, 1] c4Cams = some false := by
  refine ⟨?_, ?_, ?_⟩
  · norm_num [perAxisWithin, c4Cams, originInRig, rigidDefault, qInv, qnormSq, qconj,
      qsmul, qApply, qvec, cross, v3smul, v3add, v3neg, v3zero, abs_le]
  · norm_num [perAxisWithin, c4Cams, originInRig, rigidDefault, qInv, qnormSq, qconj,
      qsmul, qApply, qvec, cross, v3smul, v3add, v3neg, v3zero, abs_le]
  · have hsd : sortedDedup [0, 1] = [0, 1] := rfl
    simp only [isPanoramicRig, hsd, List.all_cons, List.all_nil, Bool.and_true]
    norm_num [c4Cams, originInRig, rigidDefault, qInv, qnormSq, qconj, qsmul, qApply,
      qvec, cross, v3smul, v3add, v3neg, v3zero, isApproxQ, sqNorm, v3sub, min_def]

/-- Claim C4 (amended): panoramic detection is invariant under permutation
(and multiplicity) of the referenced camera indices, and returns true iff
every referenced camera's rig-frame optical center passes Eigen's
*relative* `isApprox` test at 1e-6 (squared distance at most 1e-12 times
the smaller squared norm) against the center of the lowest-indexed
referenced camera. Being within 1e-6 of a common point is neither
necessary nor sufficient for detection. -/
theorem c4_amended_panoramic_characterization :
    ∀ (camera_idxs : List ℕ) (cams_from_rig : List Rigid3dQ),
      camera_idxs ≠ [] →
      (∀ l, l.Perm camera_idxs →
        isPanoramicRig l cams_from_rig = isPanoramicRig camera_idxs cams_from_rig) ∧
      (isPanoramicRig camera_idxs cams_from_rig = some true ↔
        ∀ idx ∈ camera_idxs,
          isApproxQ
            (originInRig (cams_from_rig.getD ((sortedDedup camera_idxs).headD 0)
              rigidDefault))
            (originInRig (cams_from_rig.getD idx rigidDefault)) (1 / 1000000)
            = true) := by
  intro camera_idxs cams hne
  constructor
  · intro l hp
    unfold isPanoramicRig
    rw [sortedDedup_perm_eq hp]
  · cases hsd : sortedDedup camera_idxs with
    | nil => exact absurd (sortedDedup_eq_nil_iff.mp hsd) hne
    | cons first rest =>
      unfold isPanoramicRig
      rw [hsd]
      simp only [Option.some.injEq, List.all_eq_true, List.headD_cons]
      constructor
      · intro hall idx hidx
        have hidx' : idx ∈ first :: rest := by
          rw [← hsd]
          exact mem_sortedDedup.mpr hidx
        rcases List.mem_cons.mp hidx' with rfl | hmem
        · exact isApproxQ_self _ _
        · exact hall idx hmem
      · intro hall idx hidx
        apply hall
        have hmem : idx ∈ sortedDedup camera_idxs := by
          rw [hsd]
          exact List.mem_cons_of_mem _ hidx
        exact mem_sortedDedup.mp hmem

/-- Witness for the amended C4 at a single referenced camera whose center
trivially passes the relative test against itself. -/
theorem c4_amended_panoramic_characterization_witness :
    isPanoramicRig [0] [rigidDefault] = some true := by
  refine (c4_amended_panoramic_characterization [0] [rigidDefault] (by decide)).2.mpr ?_
  intro idx hidx
  rw [List.mem_singleton] at hidx
  subst hidx
  have hhead : (sortedDedup [0]).headD 0 = 0 := rfl
  rw [hhead]
  exact isApproxQ_self _ _

/-! ### C1: the representative walk of `ComputeUniquePointIds` -/

/-- The representative after the comparison at position `m` is the entering
representative when the current point is within tolerance of it, otherwise
the current position. -/
theorem repAfter_eq (points3D : List V3) (sorted : List ℕ) (m : ℕ) :
    repAfter points3D sorted m
      = if isApproxQ (points3D.getD (sorted.getD (enterRep points3D sorted m) 0) v3zero)
            (points3D.getD (sorted.getD m 0) v3zero) (1 / 100000) = true
        then enterRep points3D sorted m else m := by
  cases m with
  | zero =>
    rw [if_pos]
    · rfl
    · exact isApproxQ_self _ _
  | succ m => rfl

/-- The iterator loop, started at any position with its entering
representative, produces exactly the pairs
`(sorted index, representative position)` described by `repAfter`. -/
theorem walkAux_eq_map (points3D : List V3) (sorted : List ℕ) :
    ∀ (d m : ℕ), m + d = sorted.length →
      walkAux points3D (sorted.drop m) m (enterRep points3D sorted m)
          (sorted.getD (enterRep points3D sorted m) 0)
        = (List.range' m d).map
            fun k => (sorted.getD k 0, repAfter points3D sorted k) := by
  intro d
  induction d with
  | zero =>
    intro m hm
    rw [List.drop_eq_nil_of_le (by omega)]
    rfl
  | succ d ih =>
    intro m hm
    have hmlt : m < sorted.length := by omega
    rw [List.drop_eq_getElem_cons hmlt]
    have hgetm : sorted[m] = sorted.getD m 0 := (List.getD_eq_getElem sorted 0 hmlt).symm
    rw [List.range'_succ]
    simp only [List.map_cons]
    unfold walkAux
    rw [hgetm]
    by_cases hap : isApproxQ
        (points3D.getD (sorted.getD (enterRep points3D sorted m) 0) v3zero)
        (points3D.getD (sorted.getD m 0) v3zero) (1 / 100000) = true
    · rw [if_pos hap]
      have hrep : repAfter points3D sorted m = enterRep points3D sorted m := by
        rw [repAfter_eq, if_pos hap]
      have ihm := ih (m + 1) (by omega)
      simp only [enterRep] at ihm
      rw [hrep] at ihm
      rw [ihm, hrep]
    · rw [if_neg hap]
      have hrep : repAfter points3D sorted m = m := by
        rw [repAfter_eq, if_neg hap]
      have ihm := ih (m + 1) (by omega)
      simp only [enterRep] at ihm
      rw [hrep] at ihm
      rw [ihm, hrep]

/-- The full walk over the sorted order. -/
theorem walkAux_pairs (points3D : List V3) :
    walkAux points3D (sortPointIds points3D) 0 0 ((sortPointIds points3D).getD 0 0)
      = (List.range (sortPointIds points3D).length).map
          fun k => ((sortPointIds points3D).getD k 0,
            repAfter points3D (sortPointIds points3D) k) := by
  have h := walkAux_eq_map points3D (sortPointIds points3D)
    (sortPointIds points3D).length 0 (by omega)
  simp only [enterRep] at h
  rw [List.drop_zero] at h
  rw [h, List.range_eq_range']

theorem sortPointIds_perm (points3D : List V3) :
    (sortPointIds points3D).Perm (List.range points3D.length) :=
  List.perm_insertionSort _ _

theorem sortPointIds_length (points3D : List V3) :
    (sortPointIds points3D).length = points3D.length := by
  rw [(sortPointIds_perm points3D).length_eq, List.length_range]

theorem sortPointIds_nodup (points3D : List V3) : (sortPointIds points3D).Nodup :=
  (sortPointIds_perm points3D).symm.nodup (List.nodup_range _)

theorem sortPointIds_getD_lt (points3D : List V3) (k : ℕ)
    (hk : k < (sortPointIds points3D).length) :
    (sortPointIds points3D).getD k 0 < points3D.length := by
  have hmem : (sortPointIds points3D).getD k 0 ∈ sortPointIds points3D := by
    rw [List.getD_eq_getElem _ _ hk]
    exact List.getElem_mem hk
  exact List.mem_range.mp ((sortPointIds_perm points3D).mem_iff.mp hmem)

/-- The keys of the walk's pairs are exactly the sorted index list. -/
theorem walk_pairs_keys (points3D : List V3) :
    (((List.range (sortPointIds points3D).length).map
        fun k => ((sortPointIds points3D).getD k 0,
          repAfter points3D (sortPointIds points3D) k)).map Prod.fst)
      = sortPointIds points3D := by
  rw [List.map_map]
  have hcomp : (Prod.fst ∘ fun k => ((sortPointIds points3D).getD k 0,
      repAfter points3D (sortPointIds points3D) k))
      = fun k => (sortPointIds points3D).getD k 0 := rfl
  rw [hcomp]
  exact map_getD_range _ 0

/-- Each point receives its representative's id: the entry of
`ComputeUniquePointIds` at the original index sitting at sorted position
`k` is the representative position `repAfter k`. -/
theorem computeUniquePointIds_getD (points3D : List V3) (k : ℕ)
    (hk : k < points3D.length) :
    (computeUniquePointIds points3D).getD ((sortPointIds points3D).getD k 0) 0
      = repAfter points3D (sortPointIds points3D) k := by
  have hk' : k < (sortPointIds points3D).length := by
    rw [sortPointIds_length]
    exact hk
  unfold computeUniquePointIds
  rw [getD_map_range, if_pos (sortPointIds_getD_lt points3D k hk'), walkAux_pairs]
  have hkey : ((((List.range (sortPointIds points3D).length).map
      fun j => ((sortPointIds points3D).getD j 0,
        repAfter points3D (sortPointIds points3D) j)).getD k (0, 0)).1)
      = (sortPointIds points3D).getD k 0 := by
    rw [getD_map_range, if_pos hk']
  have hval : ((((List.range (sortPointIds points3D).length).map
      fun j => ((sortPointIds points3D).getD j 0,
        repAfter points3D (sortPointIds points3D) j)).getD k (0, 0)).2)
      = repAfter points3D (sortPointIds points3D) k := by
    rw [getD_map_range, if_pos hk']
  have hnd : ((((List.range (sortPointIds points3D).length).map
      fun j => ((sortPointIds points3D).getD j 0,
        repAfter points3D (sortPointIds points3D) j)).map Prod.fst)).Nodup := by
    rw [walk_pairs_keys]
    exact sortPointIds_nodup points3D
  have hlenps : k < ((List.range (sortPointIds points3D).length).map
      fun j => ((sortPointIds points3D).getD j 0,
        repAfter points3D (sortPointIds points3D) j)).length := by
    simpa using hk'
  rw [← hkey, lookup_of_nodup_keys _ k hlenps hnd, hval]
  rfl

/-- Claim C1: `ComputeUniquePointIds` walks the lexicographically sorted
points keeping a representative, advancing it to the current point exactly
when the current point is not within the 1e-5 tolerance of the
representative, and assigns every point its representative's id (part 1);
and the merging is chained: for the input `[p, r, q]` all three points
collapse to one id although the first and last input points `p` and `q`
exceed the tolerance from each other directly (part 2). -/
theorem c1_representative_walk_and_chained_collapse :
    (∀ (points3D : List V3) (k : ℕ), k < points3D.length →
      (computeUniquePointIds points3D).getD ((sortPointIds points3D).getD k 0) 0
        = repAfter points3D (sortPointIds points3D) k) ∧
    computeUniquePointIds chainPts = [0, 0, 0] ∧
    isApproxQ (chainPts.getD 0 v3zero) (chainPts.getD 2 v3zero) (1 / 100000)
      = false := by
  refine ⟨computeUniquePointIds_getD, ?_, ?_⟩
  · have hlt12 : ltPoint chainPts 1 2 := by
      norm_num [ltPoint, lowerVector3d, chainPts, v3zero]
    have hn01 : ¬ ltPoint chainPts 0 1 := by
      norm_num [ltPoint, lowerVector3d, chainPts, v3zero]
    have hn02 : ¬ ltPoint chainPts 0 2 := by
      norm_num [ltPoint, lowerVector3d, chainPts, v3zero]
    have hsort : sortPointIds chainPts = [1, 2, 0] := by
      show List.insertionSort (ltPoint chainPts) [0, 1, 2] = [1, 2, 0]
      simp only [List.insertionSort, List.orderedInsert, hlt12, hn01, hn02,
        if_true, if_false, ite_true, ite_false]
    have happ_rq : isApproxQ (chainPts.getD 1 v3zero) (chainPts.getD 2 v3zero)
        (1 / 100000) = true := by
      norm_num [chainPts, v3zero, isApproxQ, sqNorm, v3sub, min_def]
    have happ_rp : isApproxQ (chainPts.getD 1 v3zero) (chainPts.getD 0 v3zero)
        (1 / 100000) = true := by
      norm_num [chainPts, v3zero, isApproxQ, sqNorm, v3sub, min_def]
    have hwalk : walkAux chainPts [1, 2, 0] 0 0 1 = [(1, 0), (2, 0), (0, 0)] := by
      simp only [walkAux, isApproxQ_self, happ_rq, happ_rp, if_true, ite_true]
    unfold computeUniquePointIds
    rw [hsort]
    simp only [List.getD_cons_zero]
    rw [hwalk]
    rfl
  · norm_num [chainPts, v3zero, isApproxQ, sqNorm, v3sub, min_def]

/-- Witness for C1's quantified part at the first sorted position of the
chained input. -/
theorem c1_representative_walk_and_chained_collapse_witness :
    (computeUniquePointIds chainPts).getD ((sortPointIds chainPts).getD 0 0) 0
      = repAfter chainPts (sortPointIds chainPts) 0 :=
  (c1_representative_walk_and_chained_collapse).1 chainPts 0 (by decide)

end GeneralizedPose
